import Mathlib

/-
Verification development for the mggg-states QA audit engine
(checks.py, census.py).  Python's dynamically typed rows, dictionaries,
logging and exception flow are shallowly embedded: scalar cell values
become an inductive `Value`, dictionaries become association lists,
floats become rationals, a raised exception becomes an explicit
`PyOutcome.exn`, and every audit returns its final error counter,
log records and effect counts alongside its Python return value.
-/

namespace MgggQA

/-- Dynamic scalar value of a table cell or dictionary entry
(string, int, float or None), mirroring the scalars the checks
manipulate.  Python floats are modelled as rationals. -/
inductive Value where
  | vstr (s : String)
  | vint (n : Int)
  | vfloat (q : ℚ)
  | vnone
deriving DecidableEq

/-- Severity of a log record (Logger.log_info / log_warning / log_error). -/
inductive Level where
  | info
  | warning
  | error
deriving DecidableEq

/-- Python exceptions that can escape the audited code paths. -/
inductive PyErr where
  | nameError
  | keyError
  | typeError
  | oracleUnavailable
deriving DecidableEq

/-- Value returned by an audit: an int, or Python's implicit None. -/
inductive PyRet where
  | int (n : Int)
  | pynone
deriving DecidableEq

/-- Outcome of running an audit method: a normal return or a raised
exception. -/
inductive PyOutcome where
  | ret (v : PyRet)
  | exn (e : PyErr)
deriving DecidableEq

/-- Reply of the injected census oracle for a per-county population
query (census.get_population with an explicit county list): either the
county-to-population mapping, or a raised exception. -/
inductive OracleReply where
  | pops (m : List (String × Int))
  | fail (e : PyErr)

/-- A Python dict row: association list from column name to value
(dict iteration order is insertion order, modelled by list order). -/
abbrev Row := List (String × Value)

/-- The county_aggregate dict: county key value to aggregated row,
in insertion order. -/
abbrev AggMap := List (Value × Row)

/-- Dictionary lookup d[k], first (and only) binding of the key. -/
def lookupA {α β : Type} [DecidableEq α] : List (α × β) → α → Option β
  | [], _ => none
  | (k, v) :: rest, key => if k = key then some v else lookupA rest key

/-- Dictionary update d[k] = v for a key already present: the binding
is replaced in place, order preserved. -/
def updateA {α β : Type} [DecidableEq α] (l : List (α × β)) (k : α) (v : β) :
    List (α × β) :=
  l.map fun e => if e.1 = k then (e.1, v) else e

/-- Row lookup through an Optional[str] column name: a None column name
is never a key of a string-keyed dict, so it behaves as a missing key
(Python KeyError, modelled as `none`). -/
def optLookup (r : Row) (k : Option String) : Option Value :=
  match k with
  | none => none
  | some s => lookupA r s

/-- Python truthiness of a scalar value. -/
def truthy : Value → Bool
  | .vstr s => decide (s ≠ "")
  | .vint n => decide (n ≠ 0)
  | .vfloat q => decide (q ≠ 0)
  | .vnone => false

/-- Python comparison `v != 0` on a scalar: numbers compare by value,
strings and None are simply unequal to 0. -/
def pyNeqZero : Value → Bool
  | .vint n => decide (n ≠ 0)
  | .vfloat q => decide (q ≠ 0)
  | _ => true

/-- Truthiness of an Optional[str] field (None and the empty string are
falsy). -/
def truthyOpt : Option String → Bool
  | none => false
  | some s => decide (s ≠ "")

/-- Numeric view of a value, for Python arithmetic: ints and floats are
numbers, strings and None are not (arithmetic on them raises TypeError). -/
def toRat? : Value → Option ℚ
  | .vint n => some (n : ℚ)
  | .vfloat q => some q
  | _ => none

/-- Python str() of a scalar.  Ints and strings render exactly as in
Python; the float rendering is approximated by the rational's
representation (county keys in the audited data are ints or strings,
so this case is never exercised by the claims); str(None) = "None". -/
def pyStr : Value → String
  | .vstr s => s
  | .vint n => toString n
  | .vfloat q => toString q
  | .vnone => "None"

/-- Python str.zfill(w): left-pad with zeros to width w, keeping a
leading sign in front of the padding. -/
def zfill (w : Nat) (s : String) : String :=
  if w ≤ s.length then s
  else
    let sign : String := if s.startsWith "-" then "-" else if s.startsWith "+" then "+" else ""
    let body : String := if s.startsWith "-" ∨ s.startsWith "+" then s.drop 1 else s
    sign ++ String.mk (List.replicate (w - s.length) '0') ++ body

/-- Python int() truncation of a float (toward zero), on the rational
model. -/
def pyInt (q : ℚ) : Int := q.num.tdiv (q.den : Int)

/-- decentennial = math.floor(yearEffectiveEnd / 10) * 10, with real
division then floor, i.e. floor division by 10. -/
def decentennial (yr : Int) : Int := yr.fdiv 10 * 10

/-- State a BaseCheck instance carries, as far as the audited methods
read it: the extracted shapefile rows (shapefile_gdf.iterrows values,
as dicts), the three descriptor column names, and the metadata fields
used in log messages.  The injected census oracle and the list_values
accessor are passed to the audits separately since they are functions. -/
structure CheckBase where
  shapefileRows : List Row
  countyFIPS : Option String
  countyLegalName : Option String
  totalPopulation : Option String
  stateAbbreviation : String
  repoName : String
  yearEffectiveEnd : Int

/-- Default for the rows argument of aggregate_attrs_by_county:
`if not rows:` replaces a None or empty argument with the shapefile's
rows. -/
def effectiveRows (st : CheckBase) : Option (List Row) → List Row
  | none => st.shapefileRows
  | some rs => if rs.isEmpty then st.shapefileRows else rs

/-- Default for the fips argument of aggregate_attrs_by_county:
`if not fips:` replaces a None or empty argument with the descriptor's
countyFIPS column (itself possibly None). -/
def effectiveFips (st : CheckBase) : Option String → Option String
  | none => st.countyFIPS
  | some s => if s = "" then st.countyFIPS else some s

/-- Merge of one field during county aggregation, from the dict
comprehension in BaseCheck.aggregate_attrs_by_county:
`v + county[k] if isinstance(v, float) else v if v else county[k]`.
A missing key in the new row raises KeyError, adding a float to a
non-number raises TypeError; both evaluations are lazy, exactly as in
Python. -/
def mergeEntry (county : Row) (k : String) (v : Value) : Except PyErr Value :=
  match v with
  | .vfloat q =>
    match lookupA county k with
    | none => .error .keyError
    | some cv =>
      match toRat? cv with
      | none => .error .typeError
      | some r => .ok (.vfloat (q + r))
  | _ =>
    if truthy v then .ok v
    else
      match lookupA county k with
      | none => .error .keyError
      | some cv => .ok cv

/-- The whole merged row: the comprehension iterates the accumulated
entry's items in order, keeping its keys. -/
def mergeRow (acc county : Row) : Except PyErr Row :=
  match acc with
  | [] => .ok []
  | (k, v) :: rest => do
    let v2 ← mergeEntry county k v
    let r2 ← mergeRow rest county
    .ok ((k, v2) :: r2)

/-- One iteration of the aggregation loop: read the key column of the
row (KeyError if absent), then either merge into the existing
accumulated entry (updating it in place) or append the row as a new
entry. -/
def aggStep (fips : Option String) (m : AggMap) (row : Row) : Except PyErr AggMap :=
  match optLookup row fips with
  | none => .error .keyError
  | some key =>
    match lookupA m key with
    | some acc => (mergeRow acc row).map fun merged => updateA m key merged
    | none => .ok (m ++ [(key, row)])

/-- The aggregation for-loop over the given rows, starting from an
accumulated map. -/
def aggregateRows (fips : Option String) : List Row → AggMap → Except PyErr AggMap
  | [], m => .ok m
  | r :: rs, m =>
    match aggStep fips m r with
    | .error e => .error e
    | .ok m2 => aggregateRows fips rs m2

/-- BaseCheck.aggregate_attrs_by_county with its falsy-argument
defaults: aggregates the effective rows by the effective key column
into a fresh dict. -/
def aggregate_attrs_by_county (st : CheckBase) (rows : Option (List Row))
    (fips : Option String) : Except PyErr AggMap :=
  aggregateRows (effectiveFips st fips) (effectiveRows st rows) []

/-- Result of running one audit method: the Python outcome (returned
value or raised exception), the final self.errors counter, the emitted
log records, and how many oracle queries and aggregations were
performed. -/
structure AuditResult where
  result : PyOutcome
  errors : Nat
  logs : List (Level × String)
  oracleCalls : Nat
  aggregateCalls : Nat
deriving DecidableEq

/-- Info message of TotalPopulationCheck.audit (note the trailing
space, as in the source f-string). -/
def totalInfoMsg (dec census mggg : Int) (repo : String) (yr : Int) : String :=
  "Comparing the " ++ toString dec ++ " Census total population count (" ++
    toString census ++ ") to the mggg-states count (" ++ toString mggg ++
    ") in " ++ repo ++ " for " ++ toString yr ++ " "

/-- Error message of TotalPopulationCheck.audit, carrying the exact
delta abs(census_total_population - mggg_total_population). -/
def totalErrMsg (delta : Int) : String :=
  "The total population counts are off by more than 1 (off by " ++
    toString delta ++ ")!"

/-- TotalPopulationCheck.audit on a fresh instance: censusTotal is the
already-int-coerced state-wide oracle figure, colVals the values of the
total-population column (summed then truncated by int()).  The single
assertion is caught on failure, incrementing self.errors and logging
the delta; self.errors is returned. -/
def TotalPopulationCheck.audit (st : CheckBase) (censusTotal : Int)
    (colVals : List ℚ) : AuditResult :=
  let mggg := pyInt colVals.sum
  let infoMsg := totalInfoMsg (decentennial st.yearEffectiveEnd) censusTotal mggg
    st.repoName st.yearEffectiveEnd
  if |mggg - censusTotal| ≤ 1 then
    ⟨.ret (.int 0), 0, [(.info, infoMsg)], 1, 0⟩
  else
    ⟨.ret (.int 1), 1,
      [(.info, infoMsg), (.error, totalErrMsg |censusTotal - mggg|)], 1, 0⟩

/-- Info message of CountyTotalPopulationCheck.audit. -/
def countyInfoMsg (repo : String) (yr : Int) : String :=
  "Checking the mggg-states county-level population count in " ++ repo ++
    " for " ++ toString yr

/-- Error message for a zero county population.  The source f-string
interpolates the local variable county_fips, which at that point still
holds the previous iteration's value. -/
def countyZeroMsg (legal abb cf : String) : String :=
  "The total population in " ++ legal ++ ", " ++ abb ++ " (FIPS=" ++ cf ++
    ") is zero!"

/-- Error message for a county population differing from the census. -/
def countyDiffMsg (legal abb cf tp census : String) : String :=
  "The total population in " ++ legal ++ ", " ++ abb ++ " (FIPS=" ++ cf ++
    ") differ from the US Census (" ++ tp ++ "!=" ++ census ++ ")!"

/-- The per-county for-loop of CountyTotalPopulationCheck.audit.
Arguments after the aggregated entries: current self.errors, emitted
logs, and the loop variable county_fips (none before its first
assignment: reading it then raises NameError).  Failures of the two
assertions are caught, but any other exception (KeyError on a missing
column or oracle key, TypeError on non-numeric arithmetic, NameError in
the zero-population handler) propagates. -/
def countyLoop (st : CheckBase) (pops : List (String × Int)) :
    List (Value × Row) → Nat → List (Level × String) → Option String →
    Nat × List (Level × String) × PyOutcome
  | [], errors, logs, _ => (errors, logs, .ret (.int errors))
  | (fipsVal, row) :: rest, errors, logs, cf =>
    let legal : String :=
      match st.countyLegalName with
      | some n =>
        match lookupA row n with
        | some v => pyStr v
        | none => "Unspecified"
      | none => "Unspecified"
    match optLookup row st.totalPopulation with
    | none => (errors, logs, .exn .keyError)
    | some tp =>
      let zres : Option (Nat × List (Level × String)) :=
        if pyNeqZero tp then some (errors, logs)
        else
          match cf with
          | none => none
          | some cfOld =>
            some (errors + 1,
              logs ++ [(.error, countyZeroMsg legal st.stateAbbreviation cfOld)])
      match zres with
      | none => (errors + 1, logs, .exn .nameError)
      | some (e1, l1) =>
        let cfNew := zfill 3 (pyStr fipsVal)
        match lookupA pops cfNew with
        | none => (e1, l1, .exn .keyError)
        | some census =>
          match toRat? tp with
          | none => (e1, l1, .exn .typeError)
          | some q =>
            if |q - (census : ℚ)| ≤ 1 then
              countyLoop st pops rest e1 l1 (some cfNew)
            else
              countyLoop st pops rest (e1 + 1)
                (l1 ++ [(.error, countyDiffMsg legal st.stateAbbreviation cfNew
                  (pyStr tp) (toString census))])
                (some cfNew)

/-- CountyTotalPopulationCheck.audit on a fresh instance.  When the
descriptor's countyFIPS is falsy the whole body is skipped and
self.errors (0) is returned; otherwise the rows are aggregated, the
oracle is queried once for exactly the zero-padded aggregated keys, and
the per-county loop runs.  No exception from aggregation or the oracle
is caught. -/
def CountyTotalPopulationCheck.audit (st : CheckBase)
    (oracle : List String → OracleReply) : AuditResult :=
  if truthyOpt st.countyFIPS then
    let logs0 : List (Level × String) :=
      [(.info, countyInfoMsg st.repoName st.yearEffectiveEnd)]
    match aggregate_attrs_by_county st none none with
    | .error e => ⟨.exn e, 0, logs0, 0, 1⟩
    | .ok agg =>
      match oracle (agg.map fun x => zfill 3 (pyStr x.1)) with
      | .fail e => ⟨.exn e, 0, logs0, 1, 1⟩
      | .pops ps =>
        let (e2, l2, out) := countyLoop st ps agg 0 logs0 none
        ⟨out, e2, l2, 1, 1⟩
  else ⟨.ret (.int 0), 0, [], 0, 0⟩

/-- DataExistenceCheck.audit: asserts that every value of the
countyFIPS column is truthy.  On assertion failure self.errors is
incremented, but the warning f-string then reads the undefined name
`value`, raising NameError before any log record is emitted.  The
method has no return statement, so the success path returns None. -/
def DataExistenceCheck.audit (st : CheckBase)
    (columnValues : Option String → List Value) : AuditResult :=
  if (columnValues st.countyFIPS).all truthy then
    ⟨.ret .pynone, 0, [], 0, 0⟩
  else
    ⟨.exn .nameError, 1, [], 0, 0⟩

/-- BaseCheck.file_fetch over an abstract file system (the set of
existing paths): the target path is scratch_dir + filename; the
download and write happen only when the file does not already exist.
The url parameter only feeds the download itself. -/
structure FetchOut where
  path : String
  fs : List String
  downloads : Nat
deriving DecidableEq

/-- BaseCheck.file_fetch, returning the path, the file system after
the call, and how many network downloads were performed. -/
def file_fetch (scratchDir : String) (fs : List String) (url filename : String) :
    FetchOut :=
  let filePath := scratchDir ++ filename
  if filePath ∈ fs then ⟨filePath, fs, 0⟩
  else ⟨filePath, filePath :: fs, 1⟩

/-- Result of CensusWrapper.get_population: a single summed integer, or
a county-to-population mapping. -/
inductive PopResult where
  | total (n : Int)
  | mapping (m : List (String × Int))
deriving DecidableEq

/-- Discriminator: did get_population return the single-integer form? -/
def PopResult.isTotal : PopResult → Bool
  | .total _ => true
  | .mapping _ => false

/-- CensusWrapper.get_population (census.py), abstracted over the
fetched P009001 series (county code to population): the summed total is
returned exactly when the counties argument equals the list containing
the single wildcard string, otherwise the series is returned as a dict. -/
def CensusWrapper.get_population (counties : List String)
    (series : List (String × Int)) : PopResult :=
  if counties = ["*"] then .total (series.map Prod.snd).sum
  else .mapping series

/-- Specification-side merge policy, stated from the spec's words for
comparison with the code's mergeEntry: a float-typed accumulated value
is summed with the new value, a falsy accumulated value adopts the new
value, and any other accumulated value is kept unchanged. -/
def spec_mergeField (acc new : Value) : Option Value :=
  match acc with
  | .vfloat q => (toRat? new).map fun r => Value.vfloat (q + r)
  | _ => some (if truthy acc then acc else new)

/-- Does some row carry the value k in the key column? -/
def keyAppears (fips : Option String) (rows : List Row) (k : Value) : Bool :=
  rows.any fun r => decide (optLookup r fips = some k)

/-- Concrete metadata-only check state used to instantiate the
total-population theorem. -/
def stC1 : CheckBase := ⟨[], none, none, none, "AL", "al-shapes", 2018⟩

/-- Check state for the data-existence failing input. -/
def stC2 : CheckBase := ⟨[], some "FIPS", none, none, "AL", "al-shapes", 2018⟩

/-- Column values with one falsy entry: the assertion in
DataExistenceCheck.audit fails on them. -/
def colsC2 : Option String → List Value := fun _ => [.vstr "001", .vstr ""]

/-- Check state with one county row, for the oracle-failure scenario. -/
def stC3 : CheckBase :=
  ⟨[[("FIPS", .vstr "001"), ("TOTPOP", .vfloat 10)]],
   some "FIPS", none, some "TOTPOP", "AL", "al-shapes", 2018⟩

/-- Oracle whose county query raises. -/
def oracleC3 : List String → OracleReply := fun _ => .fail .oracleUnavailable

/-- The county aggregate of stC3's single row. -/
def aggC3 : AggMap := [(.vstr "001", [("FIPS", .vstr "001"), ("TOTPOP", .vfloat 10)])]

/-- Check state whose descriptor has no countyFIPS column. -/
def stC4 : CheckBase :=
  ⟨[[("TOTPOP", .vfloat 10)]], none, none, some "TOTPOP", "AL", "al-shapes", 2018⟩

/-- An oracle that would answer, to show it is never consulted. -/
def oracleC4 : List String → OracleReply := fun _ => .pops [("001", 10)]

/-- Check state whose own fields are irrelevant to an explicit-rows
aggregation call. -/
def stC5 : CheckBase := ⟨[], some "fips", none, none, "", "", 0⟩

/-- Check state with two zero-population counties: the first one makes
the zero-population log handler read the still-unassigned county_fips. -/
def stC6 : CheckBase :=
  ⟨[[("FIPS", .vstr "001"), ("TOTPOP", .vfloat 0)],
    [("FIPS", .vstr "002"), ("TOTPOP", .vfloat 0)]],
   some "FIPS", none, some "TOTPOP", "AL", "al-shapes", 2018⟩

/-- Oracle agreeing with neither zero figure. -/
def oracleC6 : List String → OracleReply := fun _ => .pops [("001", 5), ("002", 5)]

/-- Check state for the data-existence success path. -/
def stC7 : CheckBase := ⟨[], some "FIPS", none, none, "AL", "al-shapes", 2018⟩

/-- Column values that are all truthy: the assertion holds. -/
def colsC7 : Option String → List Value := fun _ => [.vstr "001", .vstr "003"]

/-- Check state for the key-set invariant witness. -/
def stC8 : CheckBase := ⟨[], some "fips", none, none, "", "", 0⟩

/-- Three rows over two distinct key values. -/
def rowsC8 : List Row :=
  [[("fips", .vstr "001"), ("pop", .vint 1)],
   [("fips", .vstr "001"), ("pop", .vint 2)],
   [("fips", .vstr "002"), ("pop", .vint 3)]]

/-- Their aggregate: one entry per distinct key. -/
def aggC8 : AggMap :=
  [(.vstr "001", [("fips", .vstr "001"), ("pop", .vint 1)]),
   (.vstr "002", [("fips", .vstr "002"), ("pop", .vint 3)])]

/-- Replacing the value of an existing binding does not change the key
list. -/
theorem map_fst_updateA {α β : Type} [DecidableEq α] (m : List (α × β)) (k : α)
    (v : β) : (updateA m k v).map Prod.fst = m.map Prod.fst := by
  simp only [updateA, List.map_map]
  apply List.map_congr_left
  intro e _
  by_cases h : e.1 = k <;> simp [h]

/-- A key whose lookup succeeds is among the keys. -/
theorem mem_map_fst_of_lookupA {α β : Type} [DecidableEq α] {m : List (α × β)}
    {k : α} {v : β} (h : lookupA m k = some v) : k ∈ m.map Prod.fst := by
  induction m with
  | nil => simp [lookupA] at h
  | cons e rest ih =>
    obtain ⟨a, b⟩ := e
    simp only [lookupA] at h
    by_cases he : a = k
    · subst he; simp
    · rw [if_neg he] at h
      simp [ih h]

/-- One aggregation step adds exactly the row's key to the key list
(as a set). -/
theorem aggStep_keys {fips : Option String} {m : AggMap} {r : Row} {m2 : AggMap}
    (h : aggStep fips m r = .ok m2) (k : Value) :
    (k ∈ m2.map Prod.fst ↔ k ∈ m.map Prod.fst ∨ optLookup r fips = some k) := by
  cases hq : optLookup r fips with
  | none => simp [aggStep, hq] at h
  | some key =>
    cases hl : lookupA m key with
    | some acc =>
      cases hmr : mergeRow acc r with
      | error e => simp [aggStep, hq, hl, hmr, Except.map] at h
      | ok merged =>
        simp only [aggStep, hq, hl, hmr, Except.map, Except.ok.injEq] at h
        subst h
        rw [map_fst_updateA]
        have hkm := mem_map_fst_of_lookupA hl
        constructor
        · exact fun hk => Or.inl hk
        · rintro (hk | hk)
          · exact hk
          · simp only [Option.some.injEq] at hk
            subst hk
            exact hkm
    | none =>
      simp only [aggStep, hq, hl, Except.ok.injEq] at h
      subst h
      simp only [List.map_append, List.mem_append, List.map_cons, List.map_nil,
        List.mem_cons, List.not_mem_nil, or_false, Option.some.injEq]
      exact or_congr Iff.rfl ⟨Eq.symm, Eq.symm⟩

/-- The aggregation loop accumulates exactly the keys of the processed
rows on top of the keys it started with. -/
theorem aggregateRows_keys (fips : Option String) (rs : List Row) :
    ∀ (m0 m : AggMap), aggregateRows fips rs m0 = .ok m → ∀ k : Value,
      (k ∈ m.map Prod.fst ↔ k ∈ m0.map Prod.fst ∨ keyAppears fips rs k = true) := by
  induction rs with
  | nil =>
    intro m0 m h k
    unfold aggregateRows at h
    injection h with h2
    subst h2
    simp [keyAppears]
  | cons r rs ih =>
    intro m0 m h k
    unfold aggregateRows at h
    cases hs : aggStep fips m0 r with
    | error e => rw [hs] at h; exact absurd h (by simp)
    | ok m1 =>
      rw [hs] at h
      rw [ih m1 m h k, aggStep_keys hs k]
      simp only [keyAppears, List.any_cons, Bool.or_eq_true, decide_eq_true_eq]
      tauto

/-- C1: TotalPopulationCheck.audit records zero errors and returns 0
when the absolute difference between the truncated column sum and the
census total is at most 1, and records exactly one error and returns 1
when it is 2 or more; the info-level comparison record is emitted in
both cases and the error-level record carrying the exact delta only on
violation. -/
theorem TotalPopulationCheck_audit_tolerance (st : CheckBase) (censusTotal : Int)
    (colVals : List ℚ) :
    (|pyInt colVals.sum - censusTotal| ≤ 1 →
      (TotalPopulationCheck.audit st censusTotal colVals).errors = 0 ∧
      (TotalPopulationCheck.audit st censusTotal colVals).result = .ret (.int 0) ∧
      (TotalPopulationCheck.audit st censusTotal colVals).logs =
        [(.info, totalInfoMsg (decentennial st.yearEffectiveEnd) censusTotal
          (pyInt colVals.sum) st.repoName st.yearEffectiveEnd)]) ∧
    (2 ≤ |pyInt colVals.sum - censusTotal| →
      (TotalPopulationCheck.audit st censusTotal colVals).errors = 1 ∧
      (TotalPopulationCheck.audit st censusTotal colVals).result = .ret (.int 1) ∧
      (TotalPopulationCheck.audit st censusTotal colVals).logs =
        [(.info, totalInfoMsg (decentennial st.yearEffectiveEnd) censusTotal
          (pyInt colVals.sum) st.repoName st.yearEffectiveEnd),
         (.error, totalErrMsg |censusTotal - pyInt colVals.sum|)]) := by
  constructor
  · intro h
    simp [TotalPopulationCheck.audit, h]
  · intro h
    have h2 : ¬ |pyInt colVals.sum - censusTotal| ≤ 1 :=
      fun hle => absurd (le_trans h hle) (by norm_num)
    simp [TotalPopulationCheck.audit, h2]

/-- C1 witness: at census total 100 the column sum 101 yields zero
errors and the column sum 110 yields exactly one. -/
theorem TotalPopulationCheck_audit_tolerance_witness :
    (TotalPopulationCheck.audit stC1 100 [101]).errors = 0 ∧
    (TotalPopulationCheck.audit stC1 100 [110]).errors = 1 :=
  ⟨((TotalPopulationCheck_audit_tolerance stC1 100 [101]).1
      (by with_unfolding_all decide)).1,
   ((TotalPopulationCheck_audit_tolerance stC1 100 [110]).2
      (by with_unfolding_all decide)).1⟩

/-- C2: evaluating DataExistenceCheck.audit at a table whose countyFIPS
column holds one empty value shows the assertion-failure handler
raising NameError (it reads the undefined name value) instead of
returning normally: the error counter was incremented but no log record
was emitted and audit() raised. -/
theorem DataExistenceCheck_audit_raises_on_missing_value :
    (DataExistenceCheck.audit stC2 colsC2).result = .exn .nameError ∧
    (DataExistenceCheck.audit stC2 colsC2).errors = 1 ∧
    (DataExistenceCheck.audit stC2 colsC2).logs = [] :=
  ⟨rfl, rfl, rfl⟩

/-- C3 counterexample: with an oracle whose county query raises,
CountyTotalPopulationCheck.audit does not catch the exception and does
not return normally, contradicting the claim: the exception propagates
out of the call. -/
theorem CountyTotalPopulationCheck_oracle_failure_not_caught :
    (CountyTotalPopulationCheck.audit stC3 oracleC3).result = .exn .oracleUnavailable ∧
    (CountyTotalPopulationCheck.audit stC3 oracleC3).result ≠ .ret (.int 0) :=
  ⟨by with_unfolding_all rfl, by with_unfolding_all decide⟩

/-- C3 amended: if the oracle's county query raises,
CountyTotalPopulationCheck.audit propagates that exception instead of
catching it; at that point the error count is 0 (no per-county
sub-check has run), only the initial info record was logged, and the
oracle was queried exactly once. -/
theorem CountyTotalPopulationCheck_oracle_failure_propagates (st : CheckBase)
    (oracle : List String → OracleReply) (e : PyErr) (agg : AggMap)
    (h1 : truthyOpt st.countyFIPS = true)
    (h2 : aggregate_attrs_by_county st none none = .ok agg)
    (h3 : oracle (agg.map fun x => zfill 3 (pyStr x.1)) = .fail e) :
    (CountyTotalPopulationCheck.audit st oracle).result = .exn e ∧
    (CountyTotalPopulationCheck.audit st oracle).errors = 0 ∧
    (CountyTotalPopulationCheck.audit st oracle).logs =
      [(.info, countyInfoMsg st.repoName st.yearEffectiveEnd)] ∧
    (CountyTotalPopulationCheck.audit st oracle).oracleCalls = 1 := by
  simp [CountyTotalPopulationCheck.audit, h1, h2, h3]

/-- C3 witness: the amended behavior at the concrete failing oracle. -/
theorem CountyTotalPopulationCheck_oracle_failure_propagates_witness :
    (CountyTotalPopulationCheck.audit stC3 oracleC3).errors = 0 ∧
    (CountyTotalPopulationCheck.audit stC3 oracleC3).oracleCalls = 1 := by
  have h := CountyTotalPopulationCheck_oracle_failure_propagates stC3 oracleC3
    .oracleUnavailable aggC3 (by with_unfolding_all rfl)
    (by with_unfolding_all rfl) rfl
  exact ⟨h.2.1, h.2.2.2⟩

/-- C4: when the descriptor's countyFIPS column is unset (None or
empty), CountyTotalPopulationCheck.audit returns 0 with no errors, no
log records, no oracle query and no aggregation. -/
theorem CountyTotalPopulationCheck_noop_without_countyFIPS (st : CheckBase)
    (oracle : List String → OracleReply)
    (h : truthyOpt st.countyFIPS = false) :
    CountyTotalPopulationCheck.audit st oracle = ⟨.ret (.int 0), 0, [], 0, 0⟩ := by
  simp [CountyTotalPopulationCheck.audit, h]

/-- C4 witness: the no-op at a concrete descriptor without countyFIPS. -/
theorem CountyTotalPopulationCheck_noop_without_countyFIPS_witness :
    CountyTotalPopulationCheck.audit stC4 oracleC4 = ⟨.ret (.int 0), 0, [], 0, 0⟩ :=
  CountyTotalPopulationCheck_noop_without_countyFIPS stC4 oracleC4 rfl

/-- C5: the code's per-field merge agrees with the spec's policy (sum
when the accumulated value is float-typed, adopt the new value when the
accumulated value is falsy, keep it otherwise) wherever the policy is
defined; the two concrete aggregations behave as claimed: the pop
fields 100.0 and 50.0 under key 001 sum to 150.0 while key 002 keeps
75.0, and a populated name field is not overwritten by a later empty
one. -/
theorem aggregate_merge_policy :
    (∀ (county : Row) (k : String) (v cv : Value), lookupA county k = some cv →
      mergeEntry county k v =
        (match spec_mergeField v cv with
         | some w => Except.ok w
         | none => Except.error PyErr.typeError)) ∧
    aggregate_attrs_by_county stC5
      (some [[("fips", .vstr "001"), ("pop", .vfloat 100)],
             [("fips", .vstr "001"), ("pop", .vfloat 50)],
             [("fips", .vstr "002"), ("pop", .vfloat 75)]]) (some "fips") =
      .ok [(.vstr "001", [("fips", .vstr "001"), ("pop", .vfloat 150)]),
           (.vstr "002", [("fips", .vstr "002"), ("pop", .vfloat 75)])] ∧
    aggregate_attrs_by_county stC5
      (some [[("fips", .vstr "001"), ("name", .vstr "Alpha")],
             [("fips", .vstr "001"), ("name", .vstr "")]]) (some "fips") =
      .ok [(.vstr "001", [("fips", .vstr "001"), ("name", .vstr "Alpha")])] := by
  refine ⟨?_, by with_unfolding_all rfl, by with_unfolding_all rfl⟩
  intro county k v cv hcv
  cases v with
  | vfloat q =>
    simp only [mergeEntry, spec_mergeField, hcv]
    cases toRat? cv <;> simp
  | vstr s =>
    simp only [mergeEntry, spec_mergeField]
    by_cases ht : truthy (Value.vstr s) = true
    · simp [ht]
    · simp [Bool.not_eq_true] at ht
      simp [ht, hcv]
  | vint n =>
    simp only [mergeEntry, spec_mergeField]
    by_cases ht : truthy (Value.vint n) = true
    · simp [ht]
    · simp [Bool.not_eq_true] at ht
      simp [ht, hcv]
  | vnone =>
    simp [mergeEntry, spec_mergeField, truthy, hcv]

/-- C5 witness: the merge of a float-typed accumulated value with a
concrete new row, via the general conjunct. -/
theorem aggregate_merge_policy_witness :
    mergeEntry [("pop", Value.vfloat 50)] "pop" (Value.vfloat 100) =
      .ok (.vfloat 150) := by
  have h := aggregate_merge_policy.1 [("pop", Value.vfloat 50)] "pop"
    (Value.vfloat 100) (Value.vfloat 50) rfl
  rw [h]
  with_unfolding_all rfl

/-- C6: evaluating CountyTotalPopulationCheck.audit at an aggregate
with two zero-population counties: the first county's zero-population
handler increments the counter to 1 and then raises NameError (its log
message reads county_fips before the variable's first assignment), so
the second zero-population county is never examined and the run ends
with 1 error instead of one per zero-population county. -/
theorem CountyTotalPopulationCheck_zero_population_nameError :
    (CountyTotalPopulationCheck.audit stC6 oracleC6).result = .exn .nameError ∧
    (CountyTotalPopulationCheck.audit stC6 oracleC6).errors = 1 :=
  ⟨by with_unfolding_all rfl, by with_unfolding_all rfl⟩

/-- C7: evaluating DataExistenceCheck.audit at a table whose countyFIPS
column is fully truthy: the method body has no return statement, so it
returns None rather than the integer error count 0 the claim
requires. -/
theorem DataExistenceCheck_audit_returns_none :
    (DataExistenceCheck.audit stC7 colsC7).result = .ret .pynone ∧
    (DataExistenceCheck.audit stC7 colsC7).errors = 0 :=
  ⟨rfl, rfl⟩

/-- C8: whenever aggregate_attrs_by_county returns a mapping, its key
set is exactly the set of values of the effective key column over the
effective source rows: no key is dropped and none is invented. -/
theorem aggregate_attrs_by_county_keys (st : CheckBase) (rows : Option (List Row))
    (fips : Option String) (m : AggMap)
    (hm : aggregate_attrs_by_county st rows fips = .ok m) (k : Value) :
    k ∈ m.map Prod.fst ↔
      keyAppears (effectiveFips st fips) (effectiveRows st rows) k = true := by
  unfold aggregate_attrs_by_county at hm
  have h := aggregateRows_keys _ _ _ _ hm k
  simpa using h

/-- C8 witness: the key-set equality at three concrete rows over two
distinct keys. -/
theorem aggregate_attrs_by_county_keys_witness :
    Value.vstr "002" ∈ aggC8.map Prod.fst ↔
      keyAppears (effectiveFips stC8 (some "fips")) (effectiveRows stC8 (some rowsC8))
        (Value.vstr "002") = true :=
  aggregate_attrs_by_county_keys stC8 (some rowsC8) (some "fips") aggC8
    (by with_unfolding_all rfl) (Value.vstr "002")

/-- C9: file_fetch computes the same path on repeated calls, never
downloads when the file already exists, the second of two consecutive
calls never downloads, and two calls from a state without the file
perform exactly one download in total. -/
theorem file_fetch_idempotent (scratchDir : String) (fs : List String)
    (url filename : String) :
    (file_fetch scratchDir fs url filename).path =
      (file_fetch scratchDir (file_fetch scratchDir fs url filename).fs url
        filename).path ∧
    (file_fetch scratchDir (file_fetch scratchDir fs url filename).fs url
      filename).downloads = 0 ∧
    ((scratchDir ++ filename) ∈ fs →
      (file_fetch scratchDir fs url filename).downloads = 0) ∧
    ((scratchDir ++ filename) ∉ fs →
      (file_fetch scratchDir fs url filename).downloads +
        (file_fetch scratchDir (file_fetch scratchDir fs url filename).fs url
          filename).downloads = 1) := by
  by_cases h : (scratchDir ++ filename) ∈ fs <;> simp [file_fetch, h]

/-- C9 witness: fetching the same file twice into an empty scratch
directory downloads once and yields the same path both times. -/
theorem file_fetch_idempotent_witness :
    (file_fetch "/tmp/" [] "u" "f.csv").downloads +
      (file_fetch "/tmp/" (file_fetch "/tmp/" [] "u" "f.csv").fs "u"
        "f.csv").downloads = 1 ∧
    (file_fetch "/tmp/" [] "u" "f.csv").path =
      (file_fetch "/tmp/" (file_fetch "/tmp/" [] "u" "f.csv").fs "u"
        "f.csv").path :=
  ⟨(file_fetch_idempotent "/tmp/" [] "u" "f.csv").2.2.2 (by simp),
   (file_fetch_idempotent "/tmp/" [] "u" "f.csv").1⟩

/-- C10: get_population returns the single summed integer exactly when
the counties argument equals the one-element wildcard list, and returns
the county-to-population mapping for every other list; in particular a
list holding the wildcard plus another code yields the mapping. -/
theorem CensusWrapper_get_population_branch (counties : List String)
    (series : List (String × Int)) :
    ((CensusWrapper.get_population counties series).isTotal = true ↔
      counties = ["*"]) ∧
    (counties ≠ ["*"] →
      CensusWrapper.get_population counties series = .mapping series) ∧
    CensusWrapper.get_population ["*", "001"] series = .mapping series := by
  refine ⟨?_, ?_, ?_⟩
  · by_cases h : counties = ["*"] <;>
      simp [CensusWrapper.get_population, h, PopResult.isTotal]
  · intro h
    simp [CensusWrapper.get_population, h]
  · simp [CensusWrapper.get_population]

/-- C10 witness: the wildcard list yields the integer form and a plain
county list yields the mapping. -/
theorem CensusWrapper_get_population_branch_witness :
    (CensusWrapper.get_population ["*"] [("001", 5)]).isTotal = true ∧
    CensusWrapper.get_population ["015"] [("015", 7)] = .mapping [("015", 7)] :=
  ⟨(CensusWrapper_get_population_branch ["*"] [("001", 5)]).1.mpr rfl,
   (CensusWrapper_get_population_branch ["015"] [("015", 7)]).2.1 (by decide)⟩

end MgggQA
